import Mathlib

/-!
Shallow embedding of the client-side interaction layer of the GEMS Agent
chatbot (src/src/App.tsx): the session authenticator (Google credential
callback, sign-out) and the chat session controller (sendMessage), plus the
idempotent Google Sign-In widget initialization latch.

React state hooks are embedded as fields of an explicit state record; each
event handler becomes a pure function from the prior state (and the
externally supplied event data / transport outcome) to the next state.
-/

namespace GemsAgent

/-- The `user` / `agent` message role tag, `type MessageRole` (App.tsx line 14). -/
inductive MessageRole where
  | user
  | agent
  deriving DecidableEq, Repr

/-- `interface Message` (App.tsx lines 16-20).  `crypto.randomUUID()` ids are
embedded as naturals drawn from a fresh-id counter. -/
structure Message where
  id : Nat
  role : MessageRole
  text : String
  deriving DecidableEq, Repr

/-- `interface UserProfile` (App.tsx lines 22-26): `name` and `picture` are
optional fields. -/
structure UserProfile where
  name : Option String
  email : String
  picture : Option String
  deriving DecidableEq, Repr

/-- `interface GoogleJwtPayload` (App.tsx lines 28-32): the decoded JWT claims;
all three claims are optional. -/
structure GoogleJwtPayload where
  email : Option String
  name : Option String
  picture : Option String
  deriving DecidableEq, Repr

/-- JavaScript `String.prototype.trim()`: strips leading and trailing
whitespace.  Embedded structurally over the character list so it evaluates in
the kernel. -/
def jsTrim (s : String) : String :=
  String.mk (((s.data.dropWhile Char.isWhitespace).reverse.dropWhile
    Char.isWhitespace).reverse)

/-- JavaScript `String.prototype.endsWith(suff)`: the last `suff.length`
characters of `s` equal `suff`.  Embedded structurally over the character
list so it evaluates in the kernel. -/
def jsEndsWith (s suff : String) : Bool :=
  s.data.drop (s.data.length - suff.data.length) == suff.data

/-- The required domain suffix constant `EMAIL_DOMAIN` (App.tsx line 34). -/
def EMAIL_DOMAIN : String := "@randstad.no"

/-- Rejection message set for a non-qualifying email (App.tsx line 63). -/
def domainRejectMsg : String :=
  "Only employees with @randstad.no accounts can use GEMS Agent."

/-- Rejection message set when decoding the credential throws (App.tsx line 77). -/
def signInFailedMsg : String := "Google sign-in failed, please try again."

/-- Generic transport-error message (App.tsx line 285). -/
def transportErrMsg : String :=
  "Could not get response from GEMS Agent. Please try again."

/-- The React state of the `App` component (App.tsx lines 39-44):
`messages`, `inputValue`, `isLoading`, `error` (transport error),
`authError`, `user`.  `nextId` is the fresh-id counter standing in for
`crypto.randomUUID()`. -/
structure AppState where
  messages : List Message
  inputValue : String
  isLoading : Bool
  error : Option String
  authError : Option String
  user : Option UserProfile
  nextId : Nat
  deriving DecidableEq, Repr

/-- The initial state of the component: all hooks start empty/false/null. -/
def initialAppState : AppState :=
  { messages := [], inputValue := "", isLoading := false, error := none,
    authError := none, user := none, nextId := 0 }

/-- `handleCredentialResponse` (App.tsx lines 54-79).  `jwtDecode` either
yields the claims payload or throws; the argument `cred` is `none` when
decoding throws (the `catch` branch, lines 75-78).  Otherwise
the email is the email claim defaulted to the empty string
(`decoded.email ??` empty); if it does not end with `EMAIL_DOMAIN`
the handler sets `user` to `null` and sets the rejection message
(lines 61-66); on success it builds the profile with
`name: decoded.name ?? email` and clears `authError` (lines 68-73). -/
def handleCredentialResponse (st : AppState) (cred : Option GoogleJwtPayload) :
    AppState :=
  match cred with
  | none => { st with authError := some signInFailedMsg }
  | some decoded =>
    let email := decoded.email.getD ""
    if jsEndsWith email EMAIL_DOMAIN then
      { st with
          user := some { name := some (decoded.name.getD email),
                         email := email,
                         picture := decoded.picture },
          authError := none }
    else
      { st with user := none, authError := some domainRejectMsg }

/-- `handleSignOut` (App.tsx lines 194-201).  The returned `Bool` records
whether `window.google.accounts.id.revoke` was requested: the code guards
with `user?.email && window.google`, i.e. a session with a non-empty (truthy)
email must exist and the provider script must be loaded
(`googleLoaded`).  Revocation is fire-and-forget (`() => undefined` done
callback); teardown of `user`, `messages`, `authError` is unconditional. -/
def handleSignOut (st : AppState) (googleLoaded : Bool) : AppState × Bool :=
  let revokeRequested :=
    (match st.user with
     | some u => u.email != ""
     | none => false) && googleLoaded
  ({ st with user := none, messages := [], authError := none }, revokeRequested)

/-- The externally determined outcome of the single `fetch` in `sendMessage`
(App.tsx lines 229-266): the promise can reject (`netErr`), resolve with a
non-ok status (`httpErr`), resolve ok but fail JSON parsing (`parseErr`), or
resolve ok with a parsed body whose `reply` field is optional (`ok`). -/
inductive SendOutcome where
  | netErr
  | httpErr (status : Nat)
  | parseErr
  | ok (reply : Option String)
  deriving DecidableEq, Repr

/-- The acceptance guard of `sendMessage` (App.tsx lines 204-205):
`if (!trimmed || isLoading) return` — the send proceeds only when the
trimmed input is non-empty and no request is outstanding. -/
def sendAccepted (st : AppState) : Bool :=
  !(jsTrim st.inputValue == "" || st.isLoading)

/-- The state of an accepted send while its request is in flight
(App.tsx lines 207-216): the user message with the trimmed text is appended,
the input buffer is cleared, `isLoading` is set, and the prior transport
error is cleared. -/
def sendPendingState (st : AppState) : AppState :=
  { st with
      messages := st.messages ++
        [{ id := st.nextId, role := MessageRole.user, text := jsTrim st.inputValue }],
      nextId := st.nextId + 1,
      inputValue := "",
      isLoading := true,
      error := none }

/-- The terminal state of every failure path of `sendMessage`: the `catch`
block sets the generic transport error (App.tsx line 285) and the `finally`
block clears `isLoading` (line 287). -/
def sendFailureState (st1 : AppState) : AppState :=
  { st1 with error := some transportErrMsg, isLoading := false }

/-- `sendMessage` (App.tsx lines 203-289) as a function of the prior state and
the transport outcome.  Returns the next state paired with the `message`
field of the request body actually issued (`none` when the guard rejects the
send and no request goes out).  A non-ok response throws (line 252), a parse
failure throws, a missing reply throws (`!replyText`, line 264, which is also
true for a reply that is empty after trimming, the empty string being
falsy); all throws
land in the same `catch`/`finally`.  On success the agent message carries the
trimmed reply (line 256). -/
def sendMessage (st : AppState) (outcome : SendOutcome) :
    AppState × Option String :=
  if !(sendAccepted st) then (st, none)
  else
    let trimmed := jsTrim st.inputValue
    let st1 := sendPendingState st
    match outcome with
    | SendOutcome.ok (some r) =>
      let replyText := jsTrim r
      if replyText == "" then (sendFailureState st1, some trimmed)
      else
        ({ st1 with
            messages := st1.messages ++
              [{ id := st1.nextId, role := MessageRole.agent, text := replyText }],
            nextId := st1.nextId + 1,
            isLoading := false }, some trimmed)
    | SendOutcome.ok none => (sendFailureState st1, some trimmed)
    | SendOutcome.netErr => (sendFailureState st1, some trimmed)
    | SendOutcome.httpErr _ => (sendFailureState st1, some trimmed)
    | SendOutcome.parseErr => (sendFailureState st1, some trimmed)

/-- Whether a transport outcome takes the failure path of `sendMessage`:
network/parse exception, non-2xx status, absent `reply`, or a `reply` that is
empty after trimming. -/
def sendFailureOutcome (outcome : SendOutcome) : Bool :=
  match outcome with
  | SendOutcome.ok (some r) => jsTrim r == ""
  | SendOutcome.ok none => true
  | SendOutcome.netErr => true
  | SendOutcome.httpErr _ => true
  | SendOutcome.parseErr => true

/-- The externally triggered events that mutate `AppState`: the credential
callback, sign-out (with the provider-script-loaded flag at that moment),
and a send running to its terminal resolution with a given transport
outcome.  Each handler runs to completion on the single UI thread, so a trace
is a list of these events. -/
inductive AppEvent where
  | credential (cred : Option GoogleJwtPayload)
  | signOut (googleLoaded : Bool)
  | send (outcome : SendOutcome)
  deriving Repr

/-- One run-to-completion event handler dispatch. -/
def appStep (st : AppState) : AppEvent → AppState
  | AppEvent.credential c => handleCredentialResponse st c
  | AppEvent.signOut g => (handleSignOut st g).1
  | AppEvent.send o => (sendMessage st o).1

/-- Run a trace of events from a state. -/
def appRun (st : AppState) : List AppEvent → AppState
  | [] => st
  | e :: es => appRun (appStep st e) es

/-!
## Google Sign-In widget initialization (App.tsx lines 81-192)

The `useEffect` body plus its inner `initGoogleSignIn` are embedded as one
step function over an explicit latch state.  The polling wait for the
third-party script is collapsed into the per-call environment flag
`googleLoaded` (whether `window.google.accounts.id` became available before
the 10 s deadline); the possibility that a call into the provider API throws
inside the `try` block is the flag `renderThrows` (the worst position for the
throw — after `google.accounts.id.initialize` registered the callback, during
`renderButton` — is modelled, matching the `catch` that resets the latch at
line 155).
-/

/-- Per-call environment of one initialization attempt. -/
structure InitEnv where
  clientIdConfigured : Bool
  containerMounted : Bool
  googleLoaded : Bool
  clientIdWellFormed : Bool
  renderThrows : Bool
  deriving DecidableEq, Repr

/-- Persistent state across initialization attempts: the
`isGoogleSignInInitialized` ref (the latch), whether the login container
holds a rendered widget `iframe`, the count of successful widget
registrations (`renderButton` completions), the count of provider callback
registrations (`google.accounts.id.initialize` calls), and `authError`. -/
structure InitState where
  latch : Bool
  hasIframe : Bool
  registrations : Nat
  callbackRegs : Nat
  authError : Option String
  deriving DecidableEq, Repr

/-- Fresh page load: latch unset, no widget markup, nothing registered. -/
def initInitState : InitState :=
  { latch := false, hasIframe := false, registrations := 0, callbackRegs := 0,
    authError := none }

/-- Error message on Google Identity Services load timeout (App.tsx line 180). -/
def gisTimeoutMsg : String :=
  "Could not load Google sign-in. Check your internet connection or refresh the page."

/-- Error message for a malformed client id (App.tsx line 128). -/
def clientIdFormatMsg : String := "Google Client ID configuration error"

/-- Error message when the provider API throws (App.tsx line 156). -/
def gisLoadFailMsg : String :=
  "Could not load Google sign-in. Please refresh the page."

/-- One invocation of the initialization effect (App.tsx lines 81-192).
Guard order follows the source: latch (line 83), configuration/container
(line 87), pre-existing iframe sets the latch without re-rendering
(lines 92-96), script availability within the bounded poll (lines 161-182;
timeout sets an error and leaves the latch unset), client-id format check
(line 126), then latch set (line 133), callback registration (line 135) and
widget render (line 143); a throw during render resets the latch and sets an
error (lines 152-157). -/
def initStep (st : InitState) (env : InitEnv) : InitState :=
  if st.latch then st
  else if !env.clientIdConfigured || !env.containerMounted then st
  else if st.hasIframe then { st with latch := true }
  else if !env.googleLoaded then { st with authError := some gisTimeoutMsg }
  else if !env.clientIdWellFormed then { st with authError := some clientIdFormatMsg }
  else
    let st1 := { st with latch := true, callbackRegs := st.callbackRegs + 1 }
    if env.renderThrows then
      { st1 with latch := false, authError := some gisLoadFailMsg }
    else
      { st1 with registrations := st1.registrations + 1, hasIframe := true }

/-- Run a sequence of initialization attempts. -/
def initRun (st : InitState) : List InitEnv → InitState
  | [] => st
  | env :: envs => initRun (initStep st env) envs


end GemsAgent
namespace GemsAgent

theorem sendMessage_not_accepted (st : AppState) (o : SendOutcome)
    (h : sendAccepted st = false) : sendMessage st o = (st, none) := by
  unfold sendMessage
  simp [h]

theorem sendMessage_fail_eq (st : AppState) (o : SendOutcome)
    (hacc : sendAccepted st = true) (hfail : sendFailureOutcome o = true) :
    sendMessage st o = (sendFailureState (sendPendingState st), some (jsTrim st.inputValue)) := by
  unfold sendMessage
  simp only [hacc, Bool.not_true, Bool.false_eq_true, if_false]
  cases o with
  | ok r =>
    cases r with
    | none => rfl
    | some s =>
      simp only [sendFailureOutcome] at hfail
      simp [hfail]
  | netErr => rfl
  | httpErr status => rfl
  | parseErr => rfl

theorem sendMessage_ok_eq (st : AppState) (r : String)
    (hacc : sendAccepted st = true) (hr : (jsTrim r == "") = false) :
    sendMessage st (SendOutcome.ok (some r)) =
      ({ sendPendingState st with
          messages := (sendPendingState st).messages ++
            [{ id := (sendPendingState st).nextId, role := MessageRole.agent,
               text := jsTrim r }],
          nextId := (sendPendingState st).nextId + 1,
          isLoading := false }, some (jsTrim st.inputValue)) := by
  unfold sendMessage
  simp [hacc, hr]

theorem sendMessage_isLoading (st : AppState) (o : SendOutcome)
    (h : sendAccepted st = true) : (sendMessage st o).1.isLoading = false := by
  by_cases hfail : sendFailureOutcome o = true
  · rw [sendMessage_fail_eq st o h hfail]
    rfl
  · cases o with
    | ok r =>
      cases r with
      | none => simp [sendFailureOutcome] at hfail
      | some s =>
        simp only [sendFailureOutcome, Bool.not_eq_true] at hfail
        rw [sendMessage_ok_eq st s h hfail]
    | netErr => simp [sendFailureOutcome] at hfail
    | httpErr status => simp [sendFailureOutcome] at hfail
    | parseErr => simp [sendFailureOutcome] at hfail

theorem sendMessage_user (st : AppState) (o : SendOutcome) :
    (sendMessage st o).1.user = st.user := by
  by_cases hacc : sendAccepted st
  · by_cases hfail : sendFailureOutcome o = true
    · rw [sendMessage_fail_eq st o hacc hfail]
      rfl
    · cases o with
      | ok r =>
        cases r with
        | none => simp [sendFailureOutcome] at hfail
        | some s =>
          simp only [sendFailureOutcome, Bool.not_eq_true] at hfail
          rw [sendMessage_ok_eq st s hacc hfail]
          simp [sendPendingState]
      | netErr => simp [sendFailureOutcome] at hfail
      | httpErr status => simp [sendFailureOutcome] at hfail
      | parseErr => simp [sendFailureOutcome] at hfail
  · rw [sendMessage_not_accepted st o (by simpa using hacc)]

end GemsAgent
namespace GemsAgent

theorem appStep_isLoading (st : AppState) (e : AppEvent)
    (h : st.isLoading = false) : (appStep st e).isLoading = false := by
  cases e with
  | credential c =>
    show (handleCredentialResponse st c).isLoading = false
    cases c with
    | none => simpa [handleCredentialResponse]
    | some decoded =>
      simp only [handleCredentialResponse]
      split <;> simpa
  | signOut g =>
    show ((handleSignOut st g).1).isLoading = false
    simpa [handleSignOut]
  | send o =>
    show (sendMessage st o).1.isLoading = false
    by_cases hacc : sendAccepted st
    · exact sendMessage_isLoading st o hacc
    · rw [sendMessage_not_accepted st o (by simpa using hacc)]
      exact h

theorem appRun_isLoading :
    ∀ (evs : List AppEvent) (st : AppState), st.isLoading = false →
      (appRun st evs).isLoading = false
  | [], _, h => h
  | e :: es, st, h => appRun_isLoading es (appStep st e) (appStep_isLoading st e h)

/-- Every established session has a non-absent name field. -/
def userNameSet (st : AppState) : Prop :=
  ∀ p, st.user = some p → p.name ≠ none

theorem appStep_userNameSet (st : AppState) (e : AppEvent)
    (h : userNameSet st) : userNameSet (appStep st e) := by
  cases e with
  | credential c =>
    cases c with
    | none => intro p hp; exact h p hp
    | some decoded =>
      intro p hp
      have hp' : (handleCredentialResponse st (some decoded)).user = some p := hp
      simp only [handleCredentialResponse] at hp'
      by_cases hdom : jsEndsWith (decoded.email.getD "") EMAIL_DOMAIN = true
      · rw [if_pos hdom] at hp'
        simp only at hp'
        cases hp'
        simp
      · rw [if_neg (by simpa using hdom)] at hp'
        simp at hp'
  | signOut g =>
    intro p hp
    have hp' : ((handleSignOut st g).1).user = some p := hp
    simp [handleSignOut] at hp'
  | send o =>
    intro p hp
    have hp' : (sendMessage st o).1.user = some p := hp
    rw [sendMessage_user st o] at hp'
    exact h p hp'

theorem appRun_userNameSet :
    ∀ (evs : List AppEvent) (st : AppState), userNameSet st →
      userNameSet (appRun st evs)
  | [], _, h => h
  | e :: es, st, h => appRun_userNameSet es (appStep st e) (appStep_userNameSet st e h)

/-- Invariant driving the widget-registration bound: at most one successful
registration has occurred, and once one has, the latch is set. -/
def initInv (st : InitState) : Prop :=
  st.registrations ≤ 1 ∧ (st.registrations = 1 → st.latch = true)

theorem initStep_latched (st : InitState) (env : InitEnv)
    (h : st.latch = true) : initStep st env = st := by
  unfold initStep
  simp [h]

theorem initStep_inv (st : InitState) (env : InitEnv)
    (h : initInv st) : initInv (initStep st env) := by
  obtain ⟨h1, h2⟩ := h
  unfold initStep initInv
  split
  · exact ⟨h1, h2⟩
  · next hlatch =>
    have hr0 : st.registrations = 0 := by
      by_contra hne
      exact hlatch (by simp [h2 (by omega)])
    split
    · exact ⟨h1, h2⟩
    · split
      · refine ⟨?_, ?_⟩ <;> simp [hr0]
      · split
        · refine ⟨?_, ?_⟩ <;> simp [hr0]
        · split
          · refine ⟨?_, ?_⟩ <;> simp [hr0]
          · split
            · refine ⟨?_, ?_⟩ <;> simp [hr0]
            · refine ⟨?_, ?_⟩ <;> simp [hr0]

theorem initRun_inv :
    ∀ (envs : List InitEnv) (st : InitState), initInv st →
      initInv (initRun st envs)
  | [], _, h => h
  | env :: envs, st, h => initRun_inv envs (initStep st env) (initStep_inv st env h)

end GemsAgent
namespace GemsAgent

/-- Claim C1 counterexample: the claim says a bad-domain credential leaves a
previously-established session untouched, but `handleCredentialResponse` sets
`user` to `null` on the domain check failure (App.tsx line 62), clearing the
existing session. -/
theorem c1_counterexample :
    jsEndsWith "mallory@example.com" EMAIL_DOMAIN = false ∧
    ({ initialAppState with
        user := some { name := some "Alice", email := "alice@randstad.no",
                       picture := none } } : AppState).user ≠ none ∧
    (handleCredentialResponse
        { initialAppState with
            user := some { name := some "Alice", email := "alice@randstad.no",
                           picture := none } }
        (some { email := some "mallory@example.com", name := none,
                picture := none })).user = none := by decide

/-- Claim C1 (amended): for every credential whose decoded email claim is
absent, empty, or does not end with `@randstad.no`, the credential callback
creates no session, sets the rejection message, and clears any
previously-established session (the user state is reset to null by the bad
attempt); messages, transport error and loading flag are untouched. -/
theorem c1_theorem (st : AppState) (payload : GoogleJwtPayload)
    (h : jsEndsWith (payload.email.getD "") EMAIL_DOMAIN = false) :
    (handleCredentialResponse st (some payload)).user = none ∧
    (handleCredentialResponse st (some payload)).authError = some domainRejectMsg ∧
    (handleCredentialResponse st (some payload)).messages = st.messages ∧
    (handleCredentialResponse st (some payload)).error = st.error ∧
    (handleCredentialResponse st (some payload)).isLoading = st.isLoading := by
  simp only [handleCredentialResponse]
  rw [if_neg (by simp [h])]
  exact ⟨rfl, rfl, rfl, rfl, rfl⟩

/-- Claim C1 witness: the amended rejection behavior at a concrete
wrong-domain credential. -/
theorem c1_witness :
    (handleCredentialResponse initialAppState
      (some { email := some "mallory@example.com", name := none,
              picture := none })).user = none ∧
    (handleCredentialResponse initialAppState
      (some { email := some "mallory@example.com", name := none,
              picture := none })).authError = some domainRejectMsg := by
  have h := c1_theorem initialAppState
    { email := some "mallory@example.com", name := none, picture := none }
    (by decide)
  exact ⟨h.1, h.2.1⟩

/-- Claim C2 counterexample: the claim says signOut clears the transport
error, but `handleSignOut` only clears `user`, `messages` and `authError`
(App.tsx lines 198-200); a pending transport error survives. -/
theorem c2_counterexample :
    (handleSignOut { initialAppState with error := some transportErrMsg }
      true).1.error = some transportErrMsg ∧
    (handleSignOut { initialAppState with error := some transportErrMsg }
      true).1.error ≠ none := by decide

/-- Claim C2 (amended): for every prior state, signOut results in an empty
message list, no session, and a cleared authentication error, while the
transport error is left unchanged (not cleared); if a session with a
non-empty email exists and the provider script is loaded, revocation is
requested from the provider (fire-and-forget; the local teardown is
unconditional). -/
theorem c2_theorem (st : AppState) (googleLoaded : Bool) :
    (handleSignOut st googleLoaded).1.messages = [] ∧
    (handleSignOut st googleLoaded).1.user = none ∧
    (handleSignOut st googleLoaded).1.authError = none ∧
    (handleSignOut st googleLoaded).1.error = st.error ∧
    (∀ u, st.user = some u → u.email ≠ "" → googleLoaded = true →
      (handleSignOut st googleLoaded).2 = true) := by
  refine ⟨rfl, rfl, rfl, rfl, ?_⟩
  intro u hu hne hg
  subst hg
  simp [handleSignOut, hu, hne]

/-- Claim C2 witness: signOut at a concrete state with a session, history,
both errors set, and the provider loaded. -/
theorem c2_witness :
    (handleSignOut { initialAppState with
        user := some { name := none, email := "a@randstad.no", picture := none },
        messages := [{ id := 0, role := MessageRole.user, text := "Hi" }],
        error := some transportErrMsg,
        authError := some domainRejectMsg } true).1.messages = [] ∧
    (handleSignOut { initialAppState with
        user := some { name := none, email := "a@randstad.no", picture := none },
        messages := [{ id := 0, role := MessageRole.user, text := "Hi" }],
        error := some transportErrMsg,
        authError := some domainRejectMsg } true).1.user = none ∧
    (handleSignOut { initialAppState with
        user := some { name := none, email := "a@randstad.no", picture := none },
        messages := [{ id := 0, role := MessageRole.user, text := "Hi" }],
        error := some transportErrMsg,
        authError := some domainRejectMsg } true).1.authError = none ∧
    (handleSignOut { initialAppState with
        user := some { name := none, email := "a@randstad.no", picture := none },
        messages := [{ id := 0, role := MessageRole.user, text := "Hi" }],
        error := some transportErrMsg,
        authError := some domainRejectMsg } true).2 = true := by
  have h := c2_theorem { initialAppState with
      user := some { name := none, email := "a@randstad.no", picture := none },
      messages := [{ id := 0, role := MessageRole.user, text := "Hi" }],
      error := some transportErrMsg,
      authError := some domainRejectMsg } true
  exact ⟨h.1, h.2.1, h.2.2.1,
    h.2.2.2.2 { name := none, email := "a@randstad.no", picture := none }
      rfl (by decide) rfl⟩

/-- Claim C3: for every call sequence and every outcome of a send, the
in-flight flag is cleared at the send terminal resolution; the flag is true
only strictly between acceptance and terminal resolution (the pending state),
never true at rest (after any trace of completed handlers from the initial
state) and never leaked true afterwards; a non-accepted send leaves the state
unchanged. -/
theorem c3_theorem :
    (∀ evs : List AppEvent, (appRun initialAppState evs).isLoading = false) ∧
    (∀ (st : AppState) (o : SendOutcome), sendAccepted st = true →
      (sendPendingState st).isLoading = true ∧
      (sendMessage st o).1.isLoading = false) ∧
    (∀ (st : AppState) (o : SendOutcome), sendAccepted st = false →
      sendMessage st o = (st, none)) := by
  refine ⟨fun evs => appRun_isLoading evs initialAppState rfl, ?_, ?_⟩
  · intro st o hacc
    exact ⟨rfl, sendMessage_isLoading st o hacc⟩
  · intro st o hacc
    exact sendMessage_not_accepted st o hacc

/-- Claim C3 witness: the lifecycle at a concrete accepted send and a
concrete rejected one. -/
theorem c3_witness :
    (appRun initialAppState [AppEvent.send (SendOutcome.ok (some "Hello"))]).isLoading = false ∧
    (sendPendingState { initialAppState with inputValue := "Hi" }).isLoading = true ∧
    (sendMessage { initialAppState with inputValue := "Hi" }
      SendOutcome.netErr).1.isLoading = false ∧
    sendMessage initialAppState SendOutcome.netErr = (initialAppState, none) := by
  have h2 := c3_theorem.2.1 { initialAppState with inputValue := "Hi" }
    SendOutcome.netErr (by decide)
  exact ⟨c3_theorem.1 _, h2.1, h2.2,
    c3_theorem.2.2 initialAppState SendOutcome.netErr (by decide)⟩

/-- Claim C4: for every accepted send whose outcome is a failure (non-2xx,
network/parse exception, absent `reply`, or `reply` empty after trimming),
no agent message is appended (the history gains only the user message), the
single generic transport-error message is set, the in-flight flag ends
false, and all failure shapes produce the identical state. -/
theorem c4_theorem (st : AppState) (o : SendOutcome)
    (hacc : sendAccepted st = true) (hfail : sendFailureOutcome o = true) :
    (sendMessage st o).1 = sendFailureState (sendPendingState st) ∧
    (sendMessage st o).1.messages = st.messages ++
      [{ id := st.nextId, role := MessageRole.user, text := jsTrim st.inputValue }] ∧
    (sendMessage st o).1.error = some transportErrMsg ∧
    (sendMessage st o).1.isLoading = false ∧
    (∀ o2 : SendOutcome, sendFailureOutcome o2 = true →
      (sendMessage st o2).1 = (sendMessage st o).1) := by
  have he := sendMessage_fail_eq st o hacc hfail
  rw [he]
  refine ⟨rfl, rfl, rfl, rfl, ?_⟩
  intro o2 h2
  rw [sendMessage_fail_eq st o2 hacc h2]

/-- Claim C4 witness: HTTP 500 and an empty-reply body at a concrete state
both end in the failure state. -/
theorem c4_witness :
    (sendMessage { initialAppState with inputValue := "Hi" }
      (SendOutcome.httpErr 500)).1.error = some transportErrMsg ∧
    (sendMessage { initialAppState with inputValue := "Hi" }
      (SendOutcome.httpErr 500)).1.isLoading = false ∧
    (sendMessage { initialAppState with inputValue := "Hi" }
      (SendOutcome.ok (some ""))).1 =
      (sendMessage { initialAppState with inputValue := "Hi" }
        (SendOutcome.httpErr 500)).1 := by
  have h := c4_theorem { initialAppState with inputValue := "Hi" }
    (SendOutcome.httpErr 500) (by decide) (by decide)
  exact ⟨h.2.2.1, h.2.2.2.1, h.2.2.2.2 (SendOutcome.ok (some "")) (by decide)⟩

/-- Claim C5: whenever the input text trims to empty or a request is already
outstanding, send is a silent no-op: the state is unchanged and no request is
issued. -/
theorem c5_theorem (st : AppState) (o : SendOutcome)
    (h : jsTrim st.inputValue = "" ∨ st.isLoading = true) :
    sendMessage st o = (st, none) := by
  apply sendMessage_not_accepted
  unfold sendAccepted
  rcases h with h | h <;> simp [h]

/-- Claim C5 witness: whitespace-only input is a no-op. -/
theorem c5_witness :
    sendMessage { initialAppState with inputValue := "   " } SendOutcome.netErr =
      ({ initialAppState with inputValue := "   " }, none) :=
  c5_theorem { initialAppState with inputValue := "   " } SendOutcome.netErr
    (Or.inl (by decide))

/-- Claim C6: sending "Hi" from an empty history against a 2xx response with
body reply "Hello" ends with the message list
[(user, "Hi"), (agent, "Hello")], the in-flight flag false and the transport
error cleared. -/
theorem c6_theorem :
    ((sendMessage { initialAppState with inputValue := "Hi" }
        (SendOutcome.ok (some "Hello"))).1.messages.map
      (fun m => (m.role, m.text)) =
      [(MessageRole.user, "Hi"), (MessageRole.agent, "Hello")]) ∧
    (sendMessage { initialAppState with inputValue := "Hi" }
      (SendOutcome.ok (some "Hello"))).1.isLoading = false ∧
    (sendMessage { initialAppState with inputValue := "Hi" }
      (SendOutcome.ok (some "Hello"))).1.error = none := by decide

/-- Claim C7: for every credential whose decoded email ends with the required
domain suffix, the callback creates (or replaces) a session whose email field
equals that email (with name defaulted to the email and the picture claim
carried over), and clears any prior rejection message. -/
theorem c7_theorem (st : AppState) (payload : GoogleJwtPayload)
    (h : jsEndsWith (payload.email.getD "") EMAIL_DOMAIN = true) :
    (handleCredentialResponse st (some payload)).user =
      some { name := some (payload.name.getD (payload.email.getD "")),
             email := payload.email.getD "",
             picture := payload.picture } ∧
    (handleCredentialResponse st (some payload)).authError = none := by
  simp only [handleCredentialResponse]
  rw [if_pos h]
  exact ⟨rfl, rfl⟩

/-- Claim C7 witness: a concrete qualifying credential creates the session
and clears the rejection message. -/
theorem c7_witness :
    (handleCredentialResponse
      { initialAppState with authError := some domainRejectMsg }
      (some { email := some "alice@randstad.no", name := some "Alice",
              picture := none })).user =
      some { name := some "Alice", email := "alice@randstad.no", picture := none } ∧
    (handleCredentialResponse
      { initialAppState with authError := some domainRejectMsg }
      (some { email := some "alice@randstad.no", name := some "Alice",
              picture := none })).authError = none := by
  have h := c7_theorem { initialAppState with authError := some domainRejectMsg }
    { email := some "alice@randstad.no", name := some "Alice", picture := none }
    (by decide)
  exact ⟨h.1, h.2⟩

/-- Claim C8: across every sequence of invocations of the initialization
effect, at most one widget registration occurs, and once the latch is set a
subsequent invocation is a no-op (no duplicate widget, no re-registered
callback, no state change at all). -/
theorem c8_theorem :
    (∀ envs : List InitEnv, (initRun initInitState envs).registrations ≤ 1) ∧
    (∀ (st : InitState) (env : InitEnv), st.latch = true → initStep st env = st) := by
  constructor
  · intro envs
    exact (initRun_inv envs initInitState ⟨by decide, by decide⟩).1
  · exact initStep_latched

/-- Claim C8 witness: two healthy invocations register exactly once, and the
latched state absorbs a further invocation. -/
theorem c8_witness :
    (initRun initInitState
      [{ clientIdConfigured := true, containerMounted := true, googleLoaded := true,
         clientIdWellFormed := true, renderThrows := false },
       { clientIdConfigured := true, containerMounted := true, googleLoaded := true,
         clientIdWellFormed := true, renderThrows := false }]).registrations ≤ 1 ∧
    initStep
      { latch := true, hasIframe := true, registrations := 1, callbackRegs := 1,
        authError := none }
      { clientIdConfigured := true, containerMounted := true, googleLoaded := true,
        clientIdWellFormed := true, renderThrows := false } =
      { latch := true, hasIframe := true, registrations := 1, callbackRegs := 1,
        authError := none } := by
  exact ⟨c8_theorem.1 _,
    c8_theorem.2
      { latch := true, hasIframe := true, registrations := 1, callbackRegs := 1,
        authError := none }
      { clientIdConfigured := true, containerMounted := true, googleLoaded := true,
        clientIdWellFormed := true, renderThrows := false } rfl⟩

/-- Claim C9: for every accepted send, the appended user message carries the
trimmed input text, and the same trimmed text (not the raw input) is the
message field of the issued request body. -/
theorem c9_theorem (st : AppState) (o : SendOutcome)
    (h : sendAccepted st = true) :
    (sendMessage st o).2 = some (jsTrim st.inputValue) ∧
    (sendMessage st o).1.messages[st.messages.length]? =
      some { id := st.nextId, role := MessageRole.user,
             text := jsTrim st.inputValue } := by
  by_cases hfail : sendFailureOutcome o = true
  · rw [sendMessage_fail_eq st o h hfail]
    refine ⟨rfl, ?_⟩
    show ((sendPendingState st).messages)[st.messages.length]? = _
    simp [sendPendingState, List.getElem?_append_right]
  · cases o with
    | ok r =>
      cases r with
      | none => simp [sendFailureOutcome] at hfail
      | some s =>
        simp only [sendFailureOutcome, Bool.not_eq_true] at hfail
        rw [sendMessage_ok_eq st s h hfail]
        refine ⟨rfl, ?_⟩
        simp only [sendPendingState, List.append_assoc]
        rw [List.getElem?_append_right (by simp)]
        simp
    | netErr => simp [sendFailureOutcome] at hfail
    | httpErr status => simp [sendFailureOutcome] at hfail
    | parseErr => simp [sendFailureOutcome] at hfail

/-- Claim C9 witness: input with surrounding whitespace is sent and recorded
trimmed. -/
theorem c9_witness :
    (sendMessage { initialAppState with inputValue := "  Hi  " }
      SendOutcome.netErr).2 = some "Hi" ∧
    (sendMessage { initialAppState with inputValue := "  Hi  " }
      SendOutcome.netErr).1.messages[(0 : Nat)]? =
      some { id := 0, role := MessageRole.user, text := "Hi" } := by
  have h := c9_theorem { initialAppState with inputValue := "  Hi  " }
    SendOutcome.netErr (by decide)
  exact ⟨h.1, h.2⟩

/-- Claim C10: a qualifying credential whose payload lacks a name claim
creates a session whose name defaults to the email, and every session
established by any event trace has a non-absent name. -/
theorem c10_theorem :
    (∀ (st : AppState) (payload : GoogleJwtPayload),
      jsEndsWith (payload.email.getD "") EMAIL_DOMAIN = true →
      payload.name = none →
      (handleCredentialResponse st (some payload)).user =
        some { name := some (payload.email.getD ""),
               email := payload.email.getD "",
               picture := payload.picture }) ∧
    (∀ (evs : List AppEvent) (p : UserProfile),
      (appRun initialAppState evs).user = some p → p.name ≠ none) := by
  constructor
  · intro st payload hdom hname
    simp only [handleCredentialResponse]
    rw [if_pos hdom]
    simp [hname]
  · intro evs p hp
    refine appRun_userNameSet evs initialAppState ?_ p hp
    intro q hq
    simp [initialAppState] at hq

/-- Claim C10 witness: a concrete qualifying credential without a name claim
yields a session named by the email. -/
theorem c10_witness :
    (handleCredentialResponse initialAppState
      (some { email := some "bob@randstad.no", name := none, picture := none })).user =
      some { name := some "bob@randstad.no", email := "bob@randstad.no",
             picture := none } ∧
    ({ name := some "bob@randstad.no", email := "bob@randstad.no",
       picture := none } : UserProfile).name ≠ none := by
  have h1 := c10_theorem.1 initialAppState
    { email := some "bob@randstad.no", name := none, picture := none }
    (by decide) rfl
  have h2 := c10_theorem.2
    [AppEvent.credential (some { email := some "bob@randstad.no", name := none,
                                 picture := none })]
    { name := some "bob@randstad.no", email := "bob@randstad.no", picture := none }
    (by decide)
  exact ⟨h1, h2⟩

end GemsAgent
